import Mathlib

/-!
Verification of the dataRunnerPython instrument/historical-data pipeline.

This file shallowly embeds the Python sources `src/kite_service.py` and
`src/filter1.py`: dictionaries with `.get` access become structures with
`Option`-typed fields, Python truthiness is modelled explicitly (an integer
is falsy exactly when it is 0, a string exactly when it is empty), network
calls to the Kite SDK become oracle parameters of type
`... → Except String payload` (where `Except.error` models a raised fault),
and the process-wide class cache and the file system become explicit state
records threaded through the functions.
-/

namespace DataRunner

/-- One tradable security, as the dicts returned by the Kite catalog fetch
(`kite.instruments`) or loaded back from a CSV snapshot.  Every field is
`Option`-typed because the Python code reads all of them with `dict.get`. -/
structure Instrument where
  instrument_token : Option Int
  tradingsymbol : Option String
  name : Option String
  exchange : Option String
  instrument_type : Option String
  segment : Option String
  lot_size : Option Int
deriving DecidableEq

/-- One OHLCV bar, as the dicts returned by `kite.historical_data`.  The
analysis code reads `close` and `volume` with `dict.get`, so they are
`Option`-typed; prices are modelled as exact rationals. -/
structure Bar where
  date : String
  open_ : Option ℚ
  high : Option ℚ
  low : Option ℚ
  close : Option ℚ
  volume : Option Int
deriving DecidableEq

/-! ## KiteService.historical_data (src/kite_service.py lines 381-457) -/

/-- The `valid_intervals` list of `KiteService.historical_data`. -/
def validIntervals : List String :=
  ["minute", "3minute", "5minute", "10minute", "15minute", "30minute", "60minute", "day"]

/-- The invalid-interval error message, built exactly as the Python
f-string with `", ".join(valid_intervals)`. -/
def invalidIntervalMsg : String :=
  "Invalid interval. Valid values: " ++ String.intercalate ", " validIntervals

/-- Result envelope of `KiteService.historical_data`: either
`{"success": False, "error": ...}` or `{"success": True, "data": ..., "count": ...}`
(the further echo fields of the success dict are determined by the inputs and
omitted). -/
inductive HDResult where
  | failure (error : String)
  | success (data : List Bar) (count : Nat)
deriving DecidableEq

/-- `KiteService.historical_data`.  The network call
`self.kite.historical_data(...)` is the oracle `fetch`; a raised fault
(`Except.error`) is caught by the surrounding `try/except` and reshaped into
a failure envelope.  Validation follows the source order: token truthiness,
date-pair truthiness, interval truthiness, interval membership. -/
def historical_data (fetch : Int → String → String → String → Except String (List Bar))
    (instrument_token : Int) (from_date to_date interval : String) : HDResult :=
  if instrument_token = 0 then
    .failure "instrument_token is required"
  else if from_date = "" ∨ to_date = "" then
    .failure "from_date and to_date are required"
  else if interval = "" then
    .failure "interval is required"
  else if interval ∉ validIntervals then
    .failure invalidIntervalMsg
  else
    match fetch instrument_token from_date to_date interval with
    | .error e => .failure e
    | .ok data => .success data data.length

/-! ## KiteService.get_instruments (src/kite_service.py lines 138-183) -/

/-- The class-level (process-wide) cache of `KiteService`:
`_instruments_list`, `_symbol_to_instrument_map`, `_token_to_instrument_map`.
The Python dicts are modelled as lookup functions. -/
structure KiteCache where
  instruments_list : Option (List Instrument)
  symbol_to_instrument_map : String → Option Instrument
  token_to_instrument_map : Int → Option Instrument

/-- The pristine cache state: `_instruments_list is None` and empty maps. -/
def emptyKiteCache : KiteCache :=
  ⟨none, fun _ => none, fun _ => none⟩

/-- One iteration of the map-building loop for the symbol map:
`if trading_symbol: map[trading_symbol] = instrument` (a `None` or empty
trading symbol is falsy and skipped; dict assignment overwrites). -/
def insertSymbol (m : String → Option Instrument) (i : Instrument) :
    String → Option Instrument :=
  match i.tradingsymbol with
  | some s => if s = "" then m else fun k => if k = s then some i else m k
  | none => m

/-- One iteration of the map-building loop for the token map:
`if instrument_token: map[instrument_token] = instrument` (a `None` or zero
token is falsy and skipped; dict assignment overwrites). -/
def insertToken (m : Int → Option Instrument) (i : Instrument) :
    Int → Option Instrument :=
  match i.instrument_token with
  | some t => if t = 0 then m else fun k => if k = t then some i else m k
  | none => m

/-- The single pass building `_symbol_to_instrument_map` from the fetched
list, starting from the empty dict. -/
def buildSymbolMap (l : List Instrument) : String → Option Instrument :=
  l.foldl insertSymbol (fun _ => none)

/-- The single pass building `_token_to_instrument_map` from the fetched
list, starting from the empty dict. -/
def buildTokenMap (l : List Instrument) : Int → Option Instrument :=
  l.foldl insertToken (fun _ => none)

/-- Python `exchange or "NSE"`: `None` and the empty string are falsy. -/
def resolveExchange : Option String → String
  | some s => if s = "" then "NSE" else s
  | none => "NSE"

/-- Result envelope of `KiteService.get_instruments`. -/
inductive GIResult where
  | success (instruments : List Instrument)
      (symbol_to_instrument_map : String → Option Instrument)
      (token_to_instrument_map : Int → Option Instrument)
  | failure (error : String)

/-- `KiteService.get_instruments`: return the cached catalog when present;
otherwise fetch (`self.kite.instruments(exchange or "NSE")` is the oracle
`fetch`; a raised fault is caught and reshaped, leaving the cache
untouched), store the list, build both maps in one pass, and return the
envelope. -/
def get_instruments (cache : KiteCache) (exchange : Option String)
    (fetch : String → Except String (List Instrument)) : KiteCache × GIResult :=
  match cache.instruments_list with
  | some l =>
    (cache, .success l cache.symbol_to_instrument_map cache.token_to_instrument_map)
  | none =>
    match fetch (resolveExchange exchange) with
    | .error e => (cache, .failure e)
    | .ok instruments =>
      let sm := buildSymbolMap instruments
      let tm := buildTokenMap instruments
      (⟨some instruments, sm, tm⟩, .success instruments sm tm)

/-- An instrument bears symbol key `s` when its trading symbol is truthy and
equals `s`; used to state the last-write-wins characterization of the maps. -/
def bearsSymbol (s : String) (i : Instrument) : Bool :=
  i.tradingsymbol == some s && s != ""

/-- An instrument bears token key `t` when its token is truthy and equals
`t`. -/
def bearsToken (t : Int) (i : Instrument) : Bool :=
  i.instrument_token == some t && t != 0

/-! ## Broker Client Adapter call shape (src/kite_service.py lines 39-80) -/

/-- Outcome of calling a Python function: either a returned value or a
raised exception propagating uncaught to the caller. -/
inductive PyOutcome (α : Type) where
  | returns (v : α)
  | raises (msg : String)
deriving DecidableEq

/-- The uniform result envelope: `{"success": True, <payload>}` or
`{"success": False, "error": msg}`. -/
inductive Envelope (α : Type) where
  | ok (payload : α)
  | err (msg : String)
deriving DecidableEq

/-- Vendor payload of `kite.generate_session`: `data["access_token"]` is
indexed directly, the remaining fields are read with `.get(..., "")`. -/
structure SessionData where
  access_token : String
  user_id : Option String
  user_name : Option String
  user_email : Option String
  user_shortname : Option String
  broker : Option String
deriving DecidableEq

/-- The reshaped success payload of `KiteService.generate_session`. -/
structure SessionPayload where
  access_token : String
  user_id : String
  user_name : String
  user_email : String
  user_shortname : String
  broker : String
deriving DecidableEq

/-- `KiteService.get_login_url` (lines 39-43): a bare
`return self.kite.login_url()` with no try/except — the raw vendor return
value is handed back, and a vendor fault propagates to the caller. -/
def get_login_url (vendor : PyOutcome String) : PyOutcome String :=
  vendor

/-- `KiteService.generate_session` (lines 45-66): try/except around the
vendor call, reshaping success into an envelope dict and a raised fault
into a failure envelope (the access-token mutation is a side effect not
relevant to the claims and is not modelled). -/
def generate_session (vendor : PyOutcome SessionData) :
    PyOutcome (Envelope SessionPayload) :=
  match vendor with
  | .returns d =>
    .returns (.ok ⟨d.access_token, d.user_id.getD "", d.user_name.getD "",
      d.user_email.getD "", d.user_shortname.getD "", d.broker.getD ""⟩)
  | .raises e => .returns (.err e)

/-- `KiteService.get_profile` (lines 68-80), representative of the
remaining try/except-wrapped vendor passthroughs; its payload is passed
through opaquely. -/
def get_profile (vendor : PyOutcome String) : PyOutcome (Envelope String) :=
  match vendor with
  | .returns p => .returns (.ok p)
  | .raises e => .returns (.err e)

/-! ## Filter1.process_csv classification (src/filter1.py lines 109-176) -/

/-- Python `str.strip()` with no argument: remove leading and trailing
whitespace.  Defined structurally over the character list so that it
reduces in the kernel (`String.trim` is defined by well-founded recursion
and does not). -/
def pyStrip (s : String) : String :=
  ⟨((s.data.dropWhile (·.isWhitespace)).reverse.dropWhile (·.isWhitespace)).reverse⟩

/-- Rule A predicate: `instrument.get("segment", "Unknown") == "INDICES"`. -/
def isIndexInstrument (i : Instrument) : Bool :=
  i.segment.getD "Unknown" == "INDICES"

/-- Rule B predicate: not Rule A, `instrument.get("lot_size", 0) == 1` and
`instrument.get("name", "").strip() != ""`. -/
def isTradableInstrument (i : Instrument) : Bool :=
  !(isIndexInstrument i) && i.lot_size.getD 0 == 1 && pyStrip (i.name.getD "") != ""

/-- One iteration of the classification loop of `Filter1.process_csv`:
concatenate the instrument row onto the indices bucket, onto the
other-instruments bucket, or skip it. -/
def classifyStep (acc : List Instrument × List Instrument) (i : Instrument) :
    List Instrument × List Instrument :=
  if i.segment.getD "Unknown" = "INDICES" then
    (acc.1 ++ [i], acc.2)
  else if i.lot_size.getD 0 = 1 ∧ pyStrip (i.name.getD "") ≠ "" then
    (acc.1, acc.2 ++ [i])
  else
    acc

/-- The classification loop of `Filter1.process_csv` over a loaded catalog:
the indices dataframe and the other-instruments dataframe, in input order. -/
def process_csv_buckets (instruments : List Instrument) :
    List Instrument × List Instrument :=
  instruments.foldl classifyStep ([], [])

/-- File-writing behavior at the end of `Filter1.process_csv`: each output
CSV is written iff its bucket dataframe is non-empty
(`if not indices_df.empty`, `if not other_instruments_df.empty`). -/
def process_csv_writesFiles (instruments : List Instrument) : Bool × Bool :=
  (!(process_csv_buckets instruments).1.isEmpty,
   !(process_csv_buckets instruments).2.isEmpty)

/-! ## Filter1.analyze_historical_data (src/filter1.py lines 364-448) -/

/-- Python truthiness filter `if d.get("close")`: a missing, `None` or zero
close is falsy. -/
def closeTruthy (d : Bar) : Bool :=
  match d.close with
  | some c => c != 0
  | none => false

/-- Python truthiness filter `if d.get("volume")`. -/
def volumeTruthy (d : Bar) : Bool :=
  match d.volume with
  | some v => v != 0
  | none => false

/-- `prices = [d.get("close", 0) for d in data if d.get("close")]`. -/
def extractCloses (data : List Bar) : List ℚ :=
  (data.filter closeTruthy).map (fun d => d.close.getD 0)

/-- `volumes = [d.get("volume", 0) for d in data if d.get("volume")]`. -/
def extractVolumes (data : List Bar) : List Int :=
  (data.filter volumeTruthy).map (fun d => d.volume.getD 0)

/-- The `price_analysis` dict.  The Python code stores
`volatility = variance ** 0.5` as a float; since that square root is in
general irrational, the record keeps the exact `variance` and the
`volatility` definition below is its real square root. -/
structure PriceAnalysis where
  first_price : ℚ
  last_price : ℚ
  min_price : ℚ
  max_price : ℚ
  avg_price : ℚ
  price_change : ℚ
  price_change_percent : ℚ
  variance : ℚ
deriving DecidableEq

/-- The `volume_analysis` dict. -/
structure VolumeAnalysis where
  avg_volume : ℚ
  max_volume : Int
  min_volume : Int
deriving DecidableEq

/-- One element of `analysis_results`. -/
structure InstrumentAnalysis where
  trading_symbol : String
  instrument_token : Int
  data_points : Nat
  price_analysis : PriceAnalysis
  volume_analysis : VolumeAnalysis
deriving DecidableEq

/-- The price statistics computed by `Filter1.analyze_historical_data` on a
non-empty filtered closes list `p :: ps`: Python `min`/`max`/`sum/len`,
`prices[0]`, `prices[-1]`, the guarded percent change, and the population
variance. -/
def priceStats (p : ℚ) (ps : List ℚ) : PriceAnalysis :=
  let prices := p :: ps
  let min_price := ps.foldl min p
  let max_price := ps.foldl max p
  let avg_price := prices.sum / (prices.length : ℚ)
  let first_price := p
  let last_price := prices.getLast (List.cons_ne_nil p ps)
  let price_change := last_price - first_price
  let price_change_percent :=
    if first_price > 0 then price_change / first_price * 100 else 0
  let variance := (prices.map (fun x => (x - avg_price) ^ 2)).sum / (prices.length : ℚ)
  ⟨first_price, last_price, min_price, max_price, avg_price, price_change,
    price_change_percent, variance⟩

/-- `volatility = variance ** 0.5`: the float square root of the source,
modelled as the real square root of the exact variance. -/
noncomputable def volatility (p : ℚ) (ps : List ℚ) : ℝ :=
  Real.sqrt ((priceStats p ps).variance)

/-- The volume statistics: `sum(volumes)/len(volumes) if volumes else 0`,
`max(volumes) if volumes else 0`, `min(volumes) if volumes else 0`. -/
def volumeStats (volumes : List Int) : VolumeAnalysis :=
  match volumes with
  | [] => ⟨0, 0, 0⟩
  | v :: vs =>
    ⟨((v :: vs).sum : ℚ) / (((v :: vs).length : Int) : ℚ), vs.foldl max v, vs.foldl min v⟩

/-- One element of the `historical_data_results` list consumed by
`Filter1.analyze_historical_data`. -/
structure HistoricalEntry where
  trading_symbol : String
  instrument_token : Int
  historical_data : Option (List Bar)
deriving DecidableEq

/-- The loop body of `Filter1.analyze_historical_data` for a single entry:
`none` models the `continue` paths (`historical_data` key is `None`, the
bar list is empty, or no truthy close survives the filter); `some` carries
the analysis record appended to `analysis_results`. -/
def analyzeEntry (r : HistoricalEntry) : Option InstrumentAnalysis :=
  match r.historical_data with
  | none => none
  | some data =>
    if data.isEmpty then none
    else
      match extractCloses data with
      | [] => none
      | p :: ps =>
        some ⟨r.trading_symbol, r.instrument_token, data.length,
          priceStats p ps, volumeStats (extractVolumes data)⟩

/-- Result envelope of `Filter1.analyze_historical_data`. -/
inductive AnalysisResult where
  | failure (error : String)
  | success (analysis_results : List InstrumentAnalysis) (total_analyzed : Nat)
deriving DecidableEq

/-- `Filter1.analyze_historical_data`: an empty (falsy) input list is the
distinct top-level failure; otherwise the loop collects one record per
non-skipped entry and the envelope reports `success: True` with the count. -/
def analyze_historical_data (results : List HistoricalEntry) : AnalysisResult :=
  if results.isEmpty then
    .failure "No historical data to analyze"
  else
    let rs := results.filterMap analyzeEntry
    .success rs rs.length

/-! ## Filter1.fetch_instruments_and_historical_data (src/filter1.py lines 200-362) -/

/-- One row of the combined OHLC table: the trading symbol and
token are inserted as the first two columns ahead of the native bar
fields. -/
abbrev OhlcRow : Type := String × Int × Bar

/-- Loop body of `Filter1.fetch_instruments_and_historical_data` for one
instrument: the rows it contributes to the combined table.  A missing or
zero (falsy) token, a failure envelope from `historical_data`, and an empty
bar series all contribute nothing (logged and skipped, the loop
continues). -/
def instrumentRows
    (fetch : Int → String → String → String → Except String (List Bar))
    (from_date to_date : String) (inst : Instrument) : List OhlcRow :=
  match inst.instrument_token with
  | none => []
  | some t =>
    if t = 0 then []
    else
      match historical_data fetch t from_date to_date "day" with
      | .failure _ => []
      | .success data _ =>
        data.map (fun b => (inst.tradingsymbol.getD "Unknown", t, b))

/-- The `all_instrument_histories` accumulator: only non-empty
per-instrument dataframes are appended. -/
def all_instrument_histories
    (fetch : Int → String → String → String → Except String (List Bar))
    (from_date to_date : String) (instruments : List Instrument) :
    List (List OhlcRow) :=
  instruments.filterMap (fun i =>
    let rows := instrumentRows fetch from_date to_date i
    if rows.isEmpty then none else some rows)

/-- `combined_ohlc_df = pd.concat(all_instrument_histories, ...)`. -/
def combined_ohlc
    (fetch : Int → String → String → String → Except String (List Bar))
    (from_date to_date : String) (instruments : List Instrument) :
    List OhlcRow :=
  (all_instrument_histories fetch from_date to_date instruments).flatten

/-- The combined CSV is written iff the accumulator is non-empty
(`if all_instrument_histories:`); an empty accumulator is only logged. -/
def writesCombinedFile
    (fetch : Int → String → String → String → Except String (List Bar))
    (from_date to_date : String) (instruments : List Instrument) : Bool :=
  !(all_instrument_histories fetch from_date to_date instruments).isEmpty

/-! ## Filter1.get_instruments_data (src/filter1.py lines 30-81) -/

/-- The bits of the file system touched by `Filter1.get_instruments_data`:
the snapshot CSV at `results/instruments/nse-instruments.csv` and the
existence of its directory. -/
structure FileSystem where
  snapshot : Option (List Instrument)
  dirExists : Bool

/-- Result of `Filter1.get_instruments_data`: the file-branch envelope
`{"success": True, "instruments": ...}`, the passed-through
`get_instruments` envelope, or an uncaught exception. -/
inductive GIDResult where
  | fileLoaded (instruments : List Instrument)
  | fetched (result : GIResult)
  | raised (msg : String)

/-- `Filter1.get_instruments_data`: when the snapshot file exists, load the
catalog from it (no network call, no write) and wrap it in a fresh success
envelope; otherwise fetch via `KiteService.get_instruments` — on a failure
envelope the untyped index `instruments_result["instruments"]` raises
`KeyError` — and, the path still being absent, create the directory if
needed and write the snapshot as a side effect, returning the fetch
envelope unchanged. -/
def get_instruments_data (fs : FileSystem) (cache : KiteCache)
    (fetch : String → Except String (List Instrument)) :
    FileSystem × KiteCache × GIDResult :=
  match fs.snapshot with
  | some instruments => (fs, cache, .fileLoaded instruments)
  | none =>
    match get_instruments cache (some "NSE") fetch with
    | (cache2, .failure _) => (fs, cache2, .raised "KeyError: instruments")
    | (cache2, .success instruments sm tm) =>
      (⟨some instruments, true⟩, cache2, .fetched (.success instruments sm tm))

/-! ## Sample data for concrete witnesses -/

/-- Sample instrument used by concrete witnesses. -/
def instA : Instrument :=
  ⟨some 1, some "AAA", some "Alpha Industries", some "NSE", some "EQ", some "NSE", some 1⟩

/-- Second sample instrument. -/
def instB : Instrument :=
  ⟨some 2, some "BBB", some "Beta Corp", some "NSE", some "EQ", some "NSE", some 1⟩

/-- Sample instrument duplicating the trading symbol of `instA` under a
different token. -/
def instA2 : Instrument :=
  ⟨some 7, some "AAA", some "Alpha Two", some "NSE", some "EQ", some "NSE", some 1⟩

/-- Sample instrument in the INDICES segment with a non-unit lot size and a
blank name (Rule A must still catch it). -/
def instIdx : Instrument :=
  ⟨some 11, some "NIFTY 50", some "", some "NSE", some "EQ", some "INDICES", some 50⟩

/-- Sample instrument that belongs in neither classifier bucket (lot size 1
but whitespace-only name). -/
def instJunk : Instrument :=
  ⟨some 12, some "JNK", some "   ", some "NSE", some "EQ", some "NSE", some 1⟩

/-- Sample bar for the end-to-end batch scenario. -/
def barD1 : Bar := ⟨"2024-10-01", some 10, some 12, some 9, some 11, some 1000⟩

/-- Second sample bar for the end-to-end batch scenario. -/
def barD2 : Bar := ⟨"2024-10-02", some 11, some 13, some 10, some 12, some 1200⟩

/-- Third sample instrument (token 3, symbol CCC) for the batch scenario. -/
def instC : Instrument :=
  ⟨some 3, some "CCC", some "Gamma Ltd", some "NSE", some "EQ", some "NSE", some 1⟩

/-- Mocked bar-fetch oracle of the end-to-end scenario: token 1 faults,
token 2 returns an empty series, any other token returns two valid bars. -/
def scenarioFetch : Int → String → String → String → Except String (List Bar) :=
  fun t _ _ _ =>
    if t = 1 then .error "fetch fault"
    else if t = 2 then .ok []
    else .ok [barD1, barD2]

/-! # Theorems -/

/-! ## Claims C2 and C10: historical_data validation -/

/-- C2: `historical_data` validates in the order token presence, date-pair
presence, interval presence, interval membership; each failing check returns
its own distinct failure envelope before any network call (the result does
not depend on the fetch oracle), the invalid-interval message enumerates
exactly the valid set, and every interval in the set passes validation
(the result is then exactly the reshaped network outcome). -/
theorem c2_validation_order :
    (∀ fetch fd td iv, historical_data fetch 0 fd td iv =
        .failure "instrument_token is required") ∧
    (∀ fetch (t : Int) fd td iv, t ≠ 0 → (fd = "" ∨ td = "") →
        historical_data fetch t fd td iv =
          .failure "from_date and to_date are required") ∧
    (∀ fetch (t : Int) fd td, t ≠ 0 → fd ≠ "" → td ≠ "" →
        historical_data fetch t fd td "" = .failure "interval is required") ∧
    (∀ fetch (t : Int) fd td iv, t ≠ 0 → fd ≠ "" → td ≠ "" → iv ≠ "" →
        iv ∉ validIntervals →
        historical_data fetch t fd td iv = .failure invalidIntervalMsg) ∧
    invalidIntervalMsg =
      "Invalid interval. Valid values: minute, 3minute, 5minute, 10minute, 15minute, 30minute, 60minute, day" ∧
    List.Pairwise (· ≠ ·)
      ["instrument_token is required", "from_date and to_date are required",
       "interval is required", invalidIntervalMsg] ∧
    (∀ f g (t : Int) fd td iv,
        (t = 0 ∨ fd = "" ∨ td = "" ∨ iv ∉ validIntervals) →
        historical_data f t fd td iv = historical_data g t fd td iv) ∧
    (∀ fetch (t : Int) fd td iv, t ≠ 0 → fd ≠ "" → td ≠ "" →
        iv ∈ validIntervals →
        historical_data fetch t fd td iv =
          (match fetch t fd td iv with
           | .error e => .failure e
           | .ok data => .success data data.length)) := by
  refine ⟨fun _ _ _ _ => rfl, ?_, ?_, ?_, rfl, by decide, ?_, ?_⟩
  · intro fetch t fd td iv ht h
    simp [historical_data, ht, h]
  · intro fetch t fd td ht hf hd
    simp [historical_data, ht, hf, hd]
  · intro fetch t fd td iv ht hf hd hn hm
    simp [historical_data, ht, hf, hd, hn, hm]
  · intro f g t fd td iv h
    by_cases ht : t = 0 <;> by_cases hf : fd = "" <;> by_cases hd : td = "" <;>
      by_cases hn : iv = "" <;> by_cases hm : iv ∈ validIntervals <;>
      simp_all [historical_data]
  · intro fetch t fd td iv ht hf hd hm
    have hn : iv ≠ "" := by rintro rfl; simp [validIntervals] at hm
    simp [historical_data, ht, hf, hd, hn, hm]

/-- Witness for C2: each validation branch exercised at a concrete input. -/
theorem c2_validation_order_witness :
    historical_data (fun _ _ _ _ => .ok []) 0 "2024-01-01" "2024-01-08" "day" =
      .failure "instrument_token is required" ∧
    historical_data (fun _ _ _ _ => .ok []) 5 "" "2024-01-08" "day" =
      .failure "from_date and to_date are required" ∧
    historical_data (fun _ _ _ _ => .ok []) 5 "2024-01-01" "2024-01-08" "" =
      .failure "interval is required" ∧
    historical_data (fun _ _ _ _ => .ok []) 5 "2024-01-01" "2024-01-08" "weekly" =
      .failure invalidIntervalMsg ∧
    historical_data (fun _ _ _ _ => .error "net down") 5 "2024-01-01" "2024-01-08" "weekly" =
      historical_data (fun _ _ _ _ => .ok []) 5 "2024-01-01" "2024-01-08" "weekly" ∧
    historical_data
        (fun _ _ _ _ => .ok [⟨"2024-01-02", some 1, some 2, some 1, some 2, some 10⟩])
        5 "2024-01-01" "2024-01-08" "day" =
      .success [⟨"2024-01-02", some 1, some 2, some 1, some 2, some 10⟩] 1 := by
  refine ⟨c2_validation_order.1 _ _ _ _,
    c2_validation_order.2.1 _ 5 "" "2024-01-08" "day" (by decide) (Or.inl rfl),
    c2_validation_order.2.2.1 _ 5 _ _ (by decide) (by decide) (by decide),
    c2_validation_order.2.2.2.1 _ 5 _ _ "weekly" (by decide) (by decide) (by decide)
      (by decide) (by decide),
    c2_validation_order.2.2.2.2.2.2.1 _ _ 5 _ _ "weekly"
      (Or.inr (Or.inr (Or.inr (by decide)))), ?_⟩
  exact c2_validation_order.2.2.2.2.2.2.2 _ 5 _ _ "day"
    (by decide) (by decide) (by decide) (by decide)

/-- C10: a zero instrument token is treated by the truthiness check exactly
like an absent one: `historical_data` with token 0 always returns the
token-required failure envelope, independently of the fetch oracle (so no
network call is observable), even with well-formed dates and a valid
interval. -/
theorem c10_zero_token_never_queried :
    (∀ fetch, historical_data fetch 0 "2024-01-01" "2024-01-08" "day" =
        .failure "instrument_token is required") ∧
    (∀ f g fd td iv, historical_data f 0 fd td iv = historical_data g 0 fd td iv) ∧
    (∀ fetch fd td iv, historical_data fetch 0 fd td iv =
        .failure "instrument_token is required") :=
  ⟨fun _ => rfl, fun _ _ _ _ _ => rfl, fun _ _ _ _ => rfl⟩

/-! ## Claims C3 and C8: the instrument catalog cache -/

/-- Lookup characterization of the symbol-map building pass: folding
`insertSymbol` over the list answers, at key `s`, with the last instrument
bearing `s` (searched as the first hit in the reversed list), falling back
to the initial map. -/
theorem foldl_insertSymbol (l : List Instrument) (m : String → Option Instrument)
    (s : String) :
    (l.foldl insertSymbol m) s = (l.reverse.find? (bearsSymbol s)).or (m s) := by
  induction l generalizing m with
  | nil => simp
  | cons a l ih =>
    simp only [List.foldl_cons, ih, List.reverse_cons, List.find?_append]
    cases h : l.reverse.find? (bearsSymbol s) with
    | some i => simp [Option.or]
    | none =>
      simp only [Option.none_or]
      cases hts : a.tradingsymbol with
      | none =>
        have hp : bearsSymbol s a = false := by simp [bearsSymbol, hts]
        simp [List.find?_cons_of_neg, hp, insertSymbol, hts]
      | some str =>
        by_cases hstr : str = ""
        · subst hstr
          have hp : bearsSymbol s a = false := by
            rcases eq_or_ne s "" with rfl | hs
            · simp [bearsSymbol, hts]
            · simp [bearsSymbol, hts, Ne.symm hs]
          simp [List.find?_cons_of_neg, hp, insertSymbol, hts]
        · by_cases hks : s = str
          · subst hks
            have hp : bearsSymbol s a = true := by simp [bearsSymbol, hts, hstr]
            have : List.find? (bearsSymbol s) [a] = some a :=
              List.find?_cons_of_pos _ hp
            simp [this, insertSymbol, hts, hstr]
          · have hp : bearsSymbol s a = false := by
              simp [bearsSymbol, hts, Ne.symm hks]
            simp [List.find?_cons_of_neg, hp, insertSymbol, hts, hstr, hks]

/-- Lookup characterization of the token-map building pass. -/
theorem foldl_insertToken (l : List Instrument) (m : Int → Option Instrument)
    (t : Int) :
    (l.foldl insertToken m) t = (l.reverse.find? (bearsToken t)).or (m t) := by
  induction l generalizing m with
  | nil => simp
  | cons a l ih =>
    simp only [List.foldl_cons, ih, List.reverse_cons, List.find?_append]
    cases h : l.reverse.find? (bearsToken t) with
    | some i => simp [Option.or]
    | none =>
      simp only [Option.none_or]
      cases hts : a.instrument_token with
      | none =>
        have hp : bearsToken t a = false := by simp [bearsToken, hts]
        simp [List.find?_cons_of_neg, hp, insertToken, hts]
      | some v =>
        by_cases hv : v = 0
        · subst hv
          have hp : bearsToken t a = false := by
            rcases eq_or_ne t 0 with rfl | hs
            · simp [bearsToken, hts]
            · simp [bearsToken, hts, Ne.symm hs]
          simp [List.find?_cons_of_neg, hp, insertToken, hts]
        · by_cases hks : t = v
          · subst hks
            have hp : bearsToken t a = true := by simp [bearsToken, hts, hv]
            have : List.find? (bearsToken t) [a] = some a :=
              List.find?_cons_of_pos _ hp
            simp [this, insertToken, hts, hv]
          · have hp : bearsToken t a = false := by
              simp [bearsToken, hts, Ne.symm hks]
            simp [List.find?_cons_of_neg, hp, insertToken, hts, hv, hks]

/-- The symbol map built from the empty dict answers with the last
instrument in list order bearing the key. -/
theorem buildSymbolMap_eq (l : List Instrument) (s : String) :
    buildSymbolMap l s = l.reverse.find? (bearsSymbol s) := by
  simpa using foldl_insertSymbol l (fun _ => none) s

/-- The token map built from the empty dict answers with the last
instrument in list order bearing the key. -/
theorem buildTokenMap_eq (l : List Instrument) (t : Int) :
    buildTokenMap l t = l.reverse.find? (bearsToken t) := by
  simpa using foldl_insertToken l (fun _ => none) t

/-- C3: get_instruments is memoized: after a first call that fetched
successfully, a second call with arbitrary exchange argument and an
arbitrary (even different-data) fetch oracle returns exactly the first
cache and result of the first call, performing no second fetch. -/
theorem c3_get_instruments_memoized (c0 : KiteCache) (ex1 ex2 : Option String)
    (f1 f2 : String → Except String (List Instrument)) (d1 : List Instrument)
    (h0 : c0.instruments_list = none)
    (hf : f1 (resolveExchange ex1) = .ok d1) :
    get_instruments (get_instruments c0 ex1 f1).1 ex2 f2 =
      get_instruments c0 ex1 f1 ∧
    (get_instruments c0 ex1 f1).2 =
      .success d1 (buildSymbolMap d1) (buildTokenMap d1) := by
  have h1 : get_instruments c0 ex1 f1 =
      (⟨some d1, buildSymbolMap d1, buildTokenMap d1⟩,
        .success d1 (buildSymbolMap d1) (buildTokenMap d1)) := by
    simp [get_instruments, h0, hf]
  rw [h1]
  exact ⟨rfl, rfl⟩

/-- Witness for C3 at a concrete cold cache, with the second fetch oracle
returning different data than the first. -/
theorem c3_get_instruments_memoized_witness :
    get_instruments
        (get_instruments emptyKiteCache (some "NSE") (fun _ => .ok [instA])).1
        (some "BSE") (fun _ => .ok [instB]) =
      get_instruments emptyKiteCache (some "NSE") (fun _ => .ok [instA]) ∧
    (get_instruments emptyKiteCache (some "NSE") (fun _ => .ok [instA])).2 =
      .success [instA] (buildSymbolMap [instA]) (buildTokenMap [instA]) :=
  c3_get_instruments_memoized emptyKiteCache (some "NSE") (some "BSE")
    (fun _ => .ok [instA]) (fun _ => .ok [instB]) [instA] rfl rfl

/-- C8: on a successful fresh fetch, get_instruments caches the fetched
list, builds both lookup maps in one pass with last-write-wins semantics
(for every key the mapped value is the last instrument in list order
bearing that key, keys being truthy trading symbols resp. truthy tokens),
every map entry is an instrument of the cached list, and the returned
envelope carries the instruments list together with both maps. -/
theorem c8_fresh_fetch_builds_maps (c0 : KiteCache) (ex : Option String)
    (f : String → Except String (List Instrument)) (l : List Instrument)
    (h0 : c0.instruments_list = none)
    (hf : f (resolveExchange ex) = .ok l) :
    get_instruments c0 ex f =
      (⟨some l, buildSymbolMap l, buildTokenMap l⟩,
        .success l (buildSymbolMap l) (buildTokenMap l)) ∧
    (∀ s, buildSymbolMap l s = l.reverse.find? (bearsSymbol s)) ∧
    (∀ t, buildTokenMap l t = l.reverse.find? (bearsToken t)) ∧
    (∀ s i, buildSymbolMap l s = some i → i ∈ l) ∧
    (∀ t i, buildTokenMap l t = some i → i ∈ l) := by
  refine ⟨by simp [get_instruments, h0, hf], buildSymbolMap_eq l, buildTokenMap_eq l,
    ?_, ?_⟩
  · intro s i h
    rw [buildSymbolMap_eq] at h
    exact List.mem_reverse.mp (List.mem_of_find?_eq_some h)
  · intro t i h
    rw [buildTokenMap_eq] at h
    exact List.mem_reverse.mp (List.mem_of_find?_eq_some h)

/-- Witness for C8 on a concrete two-element list with a duplicated trading
symbol: the later instrument wins the symbol map, both tokens resolve, and
the winning entry is in the list. -/
theorem c8_fresh_fetch_builds_maps_witness :
    get_instruments emptyKiteCache none (fun _ => .ok [instA, instA2]) =
      (⟨some [instA, instA2], buildSymbolMap [instA, instA2],
          buildTokenMap [instA, instA2]⟩,
        .success [instA, instA2] (buildSymbolMap [instA, instA2])
          (buildTokenMap [instA, instA2])) ∧
    buildSymbolMap [instA, instA2] "AAA" = some instA2 ∧
    buildTokenMap [instA, instA2] 1 = some instA ∧
    buildTokenMap [instA, instA2] 7 = some instA2 ∧
    instA2 ∈ [instA, instA2] := by
  have h := c8_fresh_fetch_builds_maps emptyKiteCache none
    (fun _ => .ok [instA, instA2]) [instA, instA2] rfl rfl
  have hs : buildSymbolMap [instA, instA2] "AAA" = some instA2 :=
    (h.2.1 "AAA").trans (by decide)
  exact ⟨h.1, hs, (h.2.2.1 1).trans (by decide), (h.2.2.1 7).trans (by decide),
    h.2.2.2.1 "AAA" instA2 hs⟩


/-! ## Claim C4: the adapter envelope contract -/

/-- Counterexample for C4 as stated: `get_login_url` has no try/except, so
a raised vendor fault propagates to the caller unchanged instead of being
reshaped into a failure envelope. -/
theorem c4_login_url_propagates_fault :
    get_login_url (.raises "Connection refused") = .raises "Connection refused" :=
  rfl

/-- C4 amended: every try/except-wrapped vendor operation (generate_session
and the passthroughs represented by get_profile) always returns an
envelope — success wrapping the payload on a vendor return, failure with
the message of the fault on a raised fault — while `get_login_url` hands the
vendor outcome through unchanged, raw value and raised fault alike. -/
theorem c4_envelope_contract_amended :
    (∀ v, get_login_url v = v) ∧
    (∀ d, generate_session (.returns d) =
        .returns (.ok ⟨d.access_token, d.user_id.getD "", d.user_name.getD "",
          d.user_email.getD "", d.user_shortname.getD "", d.broker.getD ""⟩)) ∧
    (∀ e, generate_session (.raises e) = .returns (.err e)) ∧
    (∀ v, ∃ env, generate_session v = .returns env) ∧
    (∀ p, get_profile (.returns p) = .returns (.ok p)) ∧
    (∀ e, get_profile (.raises e) = .returns (.err e)) ∧
    (∀ v, ∃ env, get_profile v = .returns env) := by
  refine ⟨fun _ => rfl, fun _ => rfl, fun _ => rfl, ?_, fun _ => rfl, fun _ => rfl, ?_⟩
  · intro v; cases v with
    | returns d => exact ⟨_, rfl⟩
    | raises e => exact ⟨_, rfl⟩
  · intro v; cases v with
    | returns p => exact ⟨_, rfl⟩
    | raises e => exact ⟨_, rfl⟩

/-! ## Claim C5: the instrument classifier -/

/-- Accumulator characterization of the classification loop: the fold
extends both buckets by the filtered instruments, preserving input order. -/
theorem foldl_classifyStep (l : List Instrument) (a b : List Instrument) :
    l.foldl classifyStep (a, b) =
      (a ++ l.filter isIndexInstrument, b ++ l.filter isTradableInstrument) := by
  induction l generalizing a b with
  | nil => simp
  | cons i l ih =>
    by_cases h1 : i.segment.getD "Unknown" = "INDICES"
    · have hA : isIndexInstrument i = true := by simp [isIndexInstrument, h1]
      have hB : isTradableInstrument i = false := by simp [isTradableInstrument, hA]
      simp [classifyStep, h1, ih, List.filter_cons, hA, hB]
    · have hA : isIndexInstrument i = false := by simp [isIndexInstrument, h1]
      by_cases h2 : i.lot_size.getD 0 = 1 ∧ pyStrip (i.name.getD "") ≠ ""
      · have hB : isTradableInstrument i = true := by
          simp [isTradableInstrument, hA, h2.1, h2.2]
        simp [classifyStep, h1, h2, ih, List.filter_cons, hA, hB]
      · have hB : isTradableInstrument i = false := by
          rcases not_and_or.mp h2 with h | h
          · simp [isTradableInstrument, hA, h]
          · simp [isTradableInstrument, hA, not_not.mp h]
        simp [classifyStep, h1, h2, ih, List.filter_cons, hA, hB]

/-- C5: the classifier puts an instrument in the indices bucket iff its
segment (defaulting to "Unknown") equals "INDICES", in the tradable bucket
iff it is not an index, has lot size 1 and a non-blank stripped name, drops
everything else, preserves input order in both buckets (the buckets are
exactly the order-preserving filters), and writes each output file iff its
bucket is non-empty. -/
theorem c5_classifier_partition (instruments : List Instrument) :
    (process_csv_buckets instruments).1 = instruments.filter isIndexInstrument ∧
    (process_csv_buckets instruments).2 = instruments.filter isTradableInstrument ∧
    (∀ i, isIndexInstrument i = true ↔ i.segment.getD "Unknown" = "INDICES") ∧
    (∀ i, isTradableInstrument i = true ↔
        (i.segment.getD "Unknown" ≠ "INDICES" ∧ i.lot_size.getD 0 = 1 ∧
          pyStrip (i.name.getD "") ≠ "")) ∧
    (∀ i, isIndexInstrument i = false → i ∉ (process_csv_buckets instruments).1) ∧
    (∀ i, isTradableInstrument i = false → i ∉ (process_csv_buckets instruments).2) ∧
    process_csv_writesFiles instruments =
      (!(instruments.filter isIndexInstrument).isEmpty,
       !(instruments.filter isTradableInstrument).isEmpty) := by
  have hb : process_csv_buckets instruments =
      (instruments.filter isIndexInstrument, instruments.filter isTradableInstrument) := by
    simpa using foldl_classifyStep instruments [] []
  refine ⟨by rw [hb], by rw [hb], ?_, ?_, ?_, ?_, ?_⟩
  · intro i; simp [isIndexInstrument]
  · intro i
    simp [isTradableInstrument, isIndexInstrument, and_assoc]
  · intro i h hm
    rw [hb] at hm
    simp only [List.mem_filter] at hm
    simp [h] at hm
  · intro i h hm
    rw [hb] at hm
    simp only [List.mem_filter] at hm
    simp [h] at hm
  · simp [process_csv_writesFiles, hb]

/-- Witness for C5 on a concrete catalog: the INDICES instrument with lot
size 50 and blank name lands in the indices bucket, the single-lot named
instrument in the tradable bucket, the whitespace-named single-lot
instrument in neither, and both files are written. -/
theorem c5_classifier_partition_witness :
    (process_csv_buckets [instIdx, instA, instJunk]).1 =
      [instIdx, instA, instJunk].filter isIndexInstrument ∧
    instJunk ∉ (process_csv_buckets [instIdx, instA, instJunk]).1 ∧
    instJunk ∉ (process_csv_buckets [instIdx, instA, instJunk]).2 ∧
    process_csv_writesFiles [instIdx, instA, instJunk] =
      (!([instIdx, instA, instJunk].filter isIndexInstrument).isEmpty,
       !([instIdx, instA, instJunk].filter isTradableInstrument).isEmpty) := by
  have h := c5_classifier_partition [instIdx, instA, instJunk]
  exact ⟨h.1, h.2.2.2.2.1 instJunk (by decide), h.2.2.2.2.2.1 instJunk (by decide),
    h.2.2.2.2.2.2⟩


/-! ## Claims C6 and C7: series statistics -/

/-- Counterexample for C6 as stated: on the closes [100, 110, 90, 105] the
population variance computed by the code is 54.6875, not the claimed 55.1875 (the
squared deviations 77.5625 and 127.5625 are miscomputed; the true values
are 76.5625 and 126.5625), so the volatility is not the square root of
55.1875. -/
theorem c6_variance_counterexample :
    (priceStats 100 [110, 90, 105]).variance = 54.6875 ∧
    (priceStats 100 [110, 90, 105]).variance ≠ 55.1875 ∧
    volatility 100 [110, 90, 105] ≠ Real.sqrt 55.1875 := by
  have hv : (priceStats 100 [110, 90, 105]).variance = 54.6875 := by
    simp [priceStats]
    norm_num
  refine ⟨hv, by rw [hv]; norm_num, ?_⟩
  rw [volatility, hv]
  have h1 : ((54.6875 : ℚ) : ℝ) = (54.6875 : ℝ) := by norm_num
  rw [h1]
  exact ne_of_lt (Real.sqrt_lt_sqrt (by norm_num) (by norm_num))

/-- C6 amended: on every non-empty filtered closes list, the computed
statistics satisfy the spec formulas — price change is last close minus
first close by array position, the percent change is change over first
close times 100 with value 0 whenever the first close is nonpositive, the
variance is the mean of squared deviations from the mean (denominator N),
and volatility is its square root; on the concrete series
[100, 110, 90, 105] the record is exactly (first 100, last 105, min 90,
max 110, avg 101.25, change 5, percent 5, variance 54.6875) and the
volatility is the square root of 54.6875 (approximately 7.40), not of the
claimed 55.1875. -/
theorem c6_price_statistics :
    (∀ (p : ℚ) (ps : List ℚ),
        (priceStats p ps).price_change =
          (p :: ps).getLast (List.cons_ne_nil p ps) - p ∧
        (p ≤ 0 → (priceStats p ps).price_change_percent = 0) ∧
        (0 < p → (priceStats p ps).price_change_percent =
          (priceStats p ps).price_change / p * 100) ∧
        (priceStats p ps).variance =
          ((p :: ps).map (fun x =>
            (x - (p :: ps).sum / ((p :: ps).length : ℚ)) ^ 2)).sum /
            ((p :: ps).length : ℚ) ∧
        volatility p ps = Real.sqrt ((priceStats p ps).variance)) ∧
    priceStats 100 [110, 90, 105] =
      ⟨100, 105, 90, 110, 101.25, 5, 5, 54.6875⟩ ∧
    volatility 100 [110, 90, 105] = Real.sqrt 54.6875 := by
  refine ⟨?_, ?_, ?_⟩
  · intro p ps
    refine ⟨rfl, ?_, ?_, rfl, rfl⟩
    · intro hp
      simp [priceStats, not_lt.mpr hp]
    · intro hp
      simp [priceStats, hp]
  · simp [priceStats, min_def, max_def, List.getLast]
    norm_num
  · have hv : (priceStats 100 [110, 90, 105]).variance = 54.6875 := by
      simp [priceStats]
      norm_num
    rw [volatility, hv]
    norm_num

/-- Witness for C6: both branches of the percent-change guard exercised at
concrete closes lists. -/
theorem c6_price_statistics_witness :
    (priceStats (-2) [4]).price_change_percent = 0 ∧
    (priceStats 100 [110, 90, 105]).price_change_percent =
      (priceStats 100 [110, 90, 105]).price_change / 100 * 100 := by
  exact ⟨(c6_price_statistics.1 (-2) [4]).2.1 (by norm_num),
    (c6_price_statistics.1 100 [110, 90, 105]).2.2.1 (by norm_num)⟩

/-- C7: the extraction discards bars whose close (resp. volume) is missing,
null or zero — including a genuine close of exactly 0; an entry whose
filtered closes list is empty contributes no record; analyzing an empty
input collection is the distinct "No historical data to analyze" failure;
and a non-empty collection all of whose entries are skipped still reports
success with zero analyzed instruments. -/
theorem c7_analysis_skips :
    (∀ data, extractCloses data =
        data.filterMap (fun d => match d.close with
          | some c => if c = 0 then none else some c
          | none => none)) ∧
    (∀ data, extractVolumes data =
        data.filterMap (fun d => match d.volume with
          | some v => if v = 0 then none else some v
          | none => none)) ∧
    extractCloses [⟨"2024-01-02", some 1, some 1, some 1, some 0, some 5⟩] = [] ∧
    (∀ e data, e.historical_data = some data → extractCloses data = [] →
        analyzeEntry e = none) ∧
    analyze_historical_data [] = .failure "No historical data to analyze" ∧
    (∀ l, l ≠ [] → (∀ e ∈ l, analyzeEntry e = none) →
        analyze_historical_data l = .success [] 0) := by
  refine ⟨?_, ?_, by decide, ?_, rfl, ?_⟩
  · intro data
    induction data with
    | nil => rfl
    | cons d rest ih =>
      cases hc : d.close with
      | none => simp [extractCloses, List.filter_cons, List.filterMap_cons,
          closeTruthy, hc] at ih ⊢; exact ih
      | some c =>
        by_cases h0 : c = 0 <;>
          simp [extractCloses, List.filter_cons, List.filterMap_cons,
            closeTruthy, hc, h0] at ih ⊢ <;> exact ih
  · intro data
    induction data with
    | nil => rfl
    | cons d rest ih =>
      cases hc : d.volume with
      | none => simp [extractVolumes, List.filter_cons, List.filterMap_cons,
          volumeTruthy, hc] at ih ⊢; exact ih
      | some v =>
        by_cases h0 : v = 0 <;>
          simp [extractVolumes, List.filter_cons, List.filterMap_cons,
            volumeTruthy, hc, h0] at ih ⊢ <;> exact ih
  · intro e data he hcl
    by_cases hd : data.isEmpty <;> simp [analyzeEntry, he, hd, hcl]
  · intro l hl hall
    have hne : l.isEmpty = false := by
      cases l with
      | nil => exact absurd rfl hl
      | cons a t => rfl
    have hfm : l.filterMap analyzeEntry = [] := List.filterMap_eq_nil_iff.mpr hall
    simp [analyze_historical_data, hne, hfm]

/-- Witness for C7: a single entry whose only bar has close 0 yields no
record, and the one-entry batch still reports success with zero analyzed. -/
theorem c7_analysis_skips_witness :
    analyzeEntry ⟨"ZZZ", 9, some [⟨"2024-01-02", some 1, some 1, some 1, some 0, some 5⟩]⟩ =
      none ∧
    analyze_historical_data
        [⟨"ZZZ", 9, some [⟨"2024-01-02", some 1, some 1, some 1, some 0, some 5⟩]⟩] =
      .success [] 0 := by
  refine ⟨c7_analysis_skips.2.2.2.1 _ _ rfl (by decide), ?_⟩
  exact c7_analysis_skips.2.2.2.2.2 _ (by simp) (by decide)


/-! ## Claim C9: the file-backed catalog variant -/

/-- C9: when the snapshot file exists, the catalog is loaded from it with
no network access (the result is a fixed value for every fetch oracle), no
write, and no cache population; when it does not exist (and the process
cache is cold), the catalog is fetched from the network, the directory is
created, and the snapshot file is written; and a pre-existing snapshot is
never overwritten by a call. -/
theorem c9_snapshot_file_wins (fs : FileSystem) (cache : KiteCache)
    (fetch : String → Except String (List Instrument)) (l : List Instrument) :
    (fs.snapshot = some l →
        get_instruments_data fs cache fetch = (fs, cache, .fileLoaded l)) ∧
    (fs.snapshot = none → cache.instruments_list = none → fetch "NSE" = .ok l →
        get_instruments_data fs cache fetch =
          (⟨some l, true⟩, ⟨some l, buildSymbolMap l, buildTokenMap l⟩,
            .fetched (.success l (buildSymbolMap l) (buildTokenMap l)))) ∧
    (fs.snapshot = some l →
        (get_instruments_data fs cache fetch).1.snapshot = some l) := by
  refine ⟨?_, ?_, ?_⟩
  · intro h
    simp [get_instruments_data, h]
  · intro h hc hf
    have hres : resolveExchange (some "NSE") = "NSE" := rfl
    simp [get_instruments_data, h, get_instruments, hc, hres, hf]
  · intro h
    simp [get_instruments_data, h]

/-- Witness for C9: a populated snapshot is returned unchanged even though
the oracle would deliver different data, a missing snapshot triggers the
fetch-and-write path, and a faulting oracle cannot disturb an existing
snapshot. -/
theorem c9_snapshot_file_wins_witness :
    get_instruments_data ⟨some [instA], true⟩ emptyKiteCache (fun _ => .ok [instB]) =
      (⟨some [instA], true⟩, emptyKiteCache, .fileLoaded [instA]) ∧
    get_instruments_data ⟨none, false⟩ emptyKiteCache (fun _ => .ok [instB]) =
      (⟨some [instB], true⟩,
        ⟨some [instB], buildSymbolMap [instB], buildTokenMap [instB]⟩,
        .fetched (.success [instB] (buildSymbolMap [instB]) (buildTokenMap [instB]))) ∧
    (get_instruments_data ⟨some [instA], true⟩ emptyKiteCache
        (fun _ => .error "down")).1.snapshot = some [instA] :=
  ⟨(c9_snapshot_file_wins ⟨some [instA], true⟩ emptyKiteCache _ [instA]).1 rfl,
    (c9_snapshot_file_wins ⟨none, false⟩ emptyKiteCache _ [instB]).2.1 rfl rfl rfl,
    (c9_snapshot_file_wins ⟨some [instA], true⟩ emptyKiteCache _ [instA]).2.2 rfl⟩

/-! ## Claim C1: the historical bar fetcher batch -/

/-- Concatenating the accumulator over a cons: the rows of an instrument are
prepended whether or not its dataframe was appended (an empty contribution
disappears into the concatenation). -/
theorem combined_ohlc_cons
    (fetch : Int → String → String → String → Except String (List Bar))
    (fd td : String) (i : Instrument) (l : List Instrument) :
    combined_ohlc fetch fd td (i :: l) =
      instrumentRows fetch fd td i ++ combined_ohlc fetch fd td l := by
  by_cases h : instrumentRows fetch fd td i = []
  · simp [combined_ohlc, all_instrument_histories, List.filterMap_cons, h]
  · simp [combined_ohlc, all_instrument_histories, List.filterMap_cons, h]

/-- Provenance of the rows contributed by a single instrument: any row comes
from a truthy token whose fetch succeeded with a non-empty series, and it
carries the symbol and token of the instrument as its first two columns. -/
theorem mem_instrumentRows
    (fetch : Int → String → String → String → Except String (List Bar))
    (fd td : String) (inst : Instrument) (r : OhlcRow)
    (hr : r ∈ instrumentRows fetch fd td inst) :
    ∃ t, inst.instrument_token = some t ∧ t ≠ 0 ∧
      ∃ data n, historical_data fetch t fd td "day" = .success data n ∧
        data ≠ [] ∧ r.2.2 ∈ data ∧ r.1 = inst.tradingsymbol.getD "Unknown" ∧
        r.2.1 = t := by
  cases htok : inst.instrument_token with
  | none => simp [instrumentRows, htok] at hr
  | some t =>
    by_cases ht : t = 0
    · simp [instrumentRows, htok, ht] at hr
    · simp only [instrumentRows, htok, if_neg ht] at hr
      cases hd : historical_data fetch t fd td "day" with
      | failure e => rw [hd] at hr; simp at hr
      | success data n =>
        rw [hd] at hr
        simp only [List.mem_map] at hr
        obtain ⟨b, hb, rfl⟩ := hr
        exact ⟨t, rfl, ht, data, n, hd, List.ne_nil_of_mem hb, hb, rfl, rfl⟩

/-- C1: every row of the combined output table comes from an instrument of
the batch whose truthy token fetched successfully with a non-empty bar
series and is tagged with the symbol and token of that instrument as its first
two columns; a skipped instrument (no rows) never disturbs the rest of the
batch; and in the 3-instrument scenario — first fetch faults, second
returns an empty series, third returns 2 bars — the combined table has
exactly the 2 tagged rows of the third instrument, the output file is written,
and without the third instrument no file is written. -/
theorem c1_batch_combined_rows :
    (∀ fetch fd td (insts : List Instrument) (r : OhlcRow),
        r ∈ combined_ohlc fetch fd td insts →
        ∃ inst, inst ∈ insts ∧ ∃ t, inst.instrument_token = some t ∧ t ≠ 0 ∧
          ∃ data n, historical_data fetch t fd td "day" = .success data n ∧
            data ≠ [] ∧ r.2.2 ∈ data ∧ r.1 = inst.tradingsymbol.getD "Unknown" ∧
            r.2.1 = t) ∧
    (∀ fetch fd td inst insts, instrumentRows fetch fd td inst = [] →
        combined_ohlc fetch fd td (inst :: insts) =
          combined_ohlc fetch fd td insts) ∧
    combined_ohlc scenarioFetch "2024-09-24" "2024-10-02" [instA, instB, instC] =
      [("CCC", 3, barD1), ("CCC", 3, barD2)] ∧
    writesCombinedFile scenarioFetch "2024-09-24" "2024-10-02"
      [instA, instB, instC] = true ∧
    writesCombinedFile scenarioFetch "2024-09-24" "2024-10-02"
      [instA, instB] = false := by
  refine ⟨?_, ?_, by decide, by decide, by decide⟩
  · intro fetch fd td insts r
    induction insts with
    | nil =>
      intro hr
      simp [combined_ohlc, all_instrument_histories] at hr
    | cons i l ih =>
      intro hr
      rw [combined_ohlc_cons] at hr
      rcases List.mem_append.mp hr with h | h
      · obtain ⟨t, h1, h2, data, n, h3, h4, h5, h6, h7⟩ :=
          mem_instrumentRows fetch fd td i r h
        exact ⟨i, List.mem_cons_self _ _, t, h1, h2, data, n, h3, h4, h5, h6, h7⟩
      · obtain ⟨inst, hmem, rest⟩ := ih h
        exact ⟨inst, List.mem_cons_of_mem _ hmem, rest⟩
  · intro fetch fd td inst insts h
    rw [combined_ohlc_cons, h, List.nil_append]

/-- Witness for C1: provenance applied to the first row of the concrete
scenario (it must trace back to the third instrument), and the
skip-and-continue equation applied to the faulting first instrument. -/
theorem c1_batch_combined_rows_witness :
    (∃ inst, inst ∈ [instA, instB, instC] ∧ ∃ t,
        inst.instrument_token = some t ∧ t ≠ 0 ∧
        ∃ data n, historical_data scenarioFetch t "2024-09-24" "2024-10-02" "day" =
            .success data n ∧
          data ≠ [] ∧ (("CCC", 3, barD1) : OhlcRow).2.2 ∈ data ∧
          (("CCC", 3, barD1) : OhlcRow).1 = inst.tradingsymbol.getD "Unknown" ∧
          (("CCC", 3, barD1) : OhlcRow).2.1 = t) ∧
    combined_ohlc scenarioFetch "2024-09-24" "2024-10-02" (instA :: [instB, instC]) =
      combined_ohlc scenarioFetch "2024-09-24" "2024-10-02" [instB, instC] :=
  ⟨c1_batch_combined_rows.1 scenarioFetch "2024-09-24" "2024-10-02"
      [instA, instB, instC] ("CCC", 3, barD1) (by decide),
    c1_batch_combined_rows.2.1 scenarioFetch "2024-09-24" "2024-10-02"
      instA [instB, instC] (by decide)⟩

end DataRunner
